import Mathlib

/-!
Verification of the LLM orchestration core of this repository: provider
selection and configuration validation (`pkg/llms/llm_base.go`), the retry
policy (`retryPolicy` in the same file), the embedding dispatch
(`EmbedTexts`), and the conversation summarizer (whose implementation is
modelled from the specification, since only its test is present).

Go machine details that the shallow embedding makes explicit:
  * `*config.LLM` parameters alias a field of the process-wide `*config.Config`
    (`cfg.LLM` for the completion path, `cfg.OpenAIEmbeddings.Client` for the
    embeddings path); writes through the pointer are modelled by threading an
    updated `Config` value through `LLMRef.set`.
  * Go string-keyed set membership (`map[string]bool`) is modelled as a
    boolean predicate on strings.
  * Each distinct `fmt.Errorf` site is a constructor of `ResolveError`
    carrying the format arguments, so that distinct failure sites stay
    distinguishable (their format strings are pairwise non-overlapping).
-/

namespace Zep

/-- Source: `config.AzureOpenAIConfig`, the `AzureOpenAIModel` field of
`config.LLM` with its `LLMDeployment` and `EmbeddingDeployment` fields. -/
structure AzureOpenAIModelConfig where
  LLMDeployment : String
  EmbeddingDeployment : String
deriving DecidableEq

/-- Source: `config.LLM` — the fields read by `pkg/llms`. -/
structure LLM where
  Service : String
  Model : String
  OpenAIAPIKey : String
  OpenAIEndpoint : String
  AzureOpenAIEndpoint : String
  AzureOpenAIModel : AzureOpenAIModelConfig
  OpenAIOrgID : String
deriving DecidableEq

/-- Source: the `Embeddings` block of an extractor config
(`cfg.Extractors.Messages.Embeddings` / `cfg.Extractors.Documents.Embeddings`). -/
structure EmbeddingsSettings where
  Enabled : Bool
  Service : String
  Dimensions : Nat
deriving DecidableEq

/-- Source: one extractor entry under `cfg.Extractors`. -/
structure ExtractorEntry where
  Embeddings : EmbeddingsSettings
deriving DecidableEq

/-- Source: `cfg.Extractors` with its `Messages` and `Documents` entries. -/
structure ExtractorsConfig where
  Messages : ExtractorEntry
  Documents : ExtractorEntry
deriving DecidableEq

/-- Source: `cfg.OpenAIEmbeddings` with its `Enabled` flag and `Client`
(`config.LLM`) used by `NewEmbeddingsClient`. -/
structure OpenAIEmbeddingsConfig where
  Enabled : Bool
  Client : LLM
deriving DecidableEq

/-- Source: `config.Config` — the fields read by `pkg/llms/llm_base.go`. -/
structure Config where
  LLM : LLM
  OpenAIEmbeddings : OpenAIEmbeddingsConfig
  Extractors : ExtractorsConfig
deriving DecidableEq

/-- Source: `llm_base.go` line 19, `InvalidLLMModelError`. -/
def InvalidLLMModelError : String := "llm model is not set or is invalid"

/-- Source: `llm_base.go` `ValidOpenAILLMs` map (membership predicate). -/
def ValidOpenAILLMs (m : String) : Bool :=
  m = "gpt-3.5-turbo" || m = "gpt-4" || m = "gpt-3.5-turbo-16k" || m = "gpt-4-32k"

/-- Source: `llm_base.go` `ValidOpenSourceLLMs` map (membership predicate). -/
def ValidOpenSourceLLMs (m : String) : Bool :=
  m = "meta-llama/Llama-2-7b-chat-hf" || m = "meta-llama/Llama-2-13b-chat-hf" ||
    m = "meta-llama/Llama-2-70b-chat-hf"

/-- Source: `llm_base.go` `ValidAnthropicLLMs` map (membership predicate). -/
def ValidAnthropicLLMs (m : String) : Bool :=
  m = "claude-instant-1" || m = "claude-2"

/-- Source: `llm_base.go` `ValidLLMMap = internal.MergeMaps(ValidOpenAILLMs, ValidAnthropicLLMs)`. -/
def ValidLLMMap (m : String) : Bool :=
  ValidOpenAILLMs m || ValidAnthropicLLMs m

/-- Source: `llm_base.go` `useOpenAIEmbeddings`: a Go `switch { case b: ... }`
takes the first case whose condition is true. -/
def useOpenAIEmbeddings (cfg : Config) : Bool :=
  if cfg.Extractors.Messages.Embeddings.Enabled then
    cfg.Extractors.Messages.Embeddings.Service = "openai"
  else if cfg.Extractors.Documents.Embeddings.Enabled then
    cfg.Extractors.Documents.Embeddings.Service = "openai"
  else
    false

/-- One constructor per `fmt.Errorf` site of `llm_base.go`, carrying the
format arguments:
  * `invalidLLMDeployment service` — line 40: invalid llm deployment for
    SERVICE, deployment name is required
  * `invalidEmbeddingsDeployment service` — line 49: invalid embeddings
    deployment for SERVICE, deployment name is required
  * `invalidModel model service` — line 61: invalid llm model MODEL for
    SERVICE (the message names the offending model)
  * `invalidService service` — line 98: invalid LLM service: SERVICE
  * `invalidEmbeddingsService service` — line 113: invalid OpenAI Embeddings
    service: SERVICE -/
inductive ResolveError where
  | invalidLLMDeployment (service : String)
  | invalidEmbeddingsDeployment (service : String)
  | invalidModel (model : String) (service : String)
  | invalidService (service : String)
  | invalidEmbeddingsService (service : String)
deriving DecidableEq

/-- Outcome of resolving a client: either a constructed client (the
`config.LLM` value handed to `NewOpenAILLM`, or the whole config handed to
`NewAnthropicLLM`), or an error and no client. -/
inductive ResolveResult where
  | openaiClient (llmConfig : LLM)
  | anthropicClient (cfg : Config)
  | err (e : ResolveError)
deriving DecidableEq

/-- A Go `*config.LLM` pointer into the process configuration: `get` reads
the pointee, `set` writes it back into the `Config` it lives in. -/
structure LLMRef where
  get : Config → LLM
  set : Config → LLM → Config

/-- The pointer `&cfg.LLM` passed by `NewLLMClient`. -/
def llmRefLLM : LLMRef where
  get := fun c => c.LLM
  set := fun c v => { c with LLM := v }

/-- The pointer `&cfg.OpenAIEmbeddings.Client` passed by `NewEmbeddingsClient`. -/
def llmRefEmbeddings : LLMRef where
  get := fun c => c.OpenAIEmbeddings.Client
  set := fun c v => { c with OpenAIEmbeddings := { c.OpenAIEmbeddings with Client := v } }

/-- Source: `llm_base.go` `handleOpenAIClient(ctx, llmConfig, clientType)`.
`r` is the pointer through which `llmConfig` aliases a field of the global
`cfg`; the returned `Config` is the post-call state of that global (the
function overwrites `llmConfig.Model` with the Azure deployment name).
Reads written `cfg.LLM...` in the source stay reads of `cfg.LLM` here even on
the embeddings path, exactly as the source has them.  The source's
`isValidOpenSourceLLM` binding and the `clientType = "embeddings"` test are
read as the evident boolean binding and equality test, and the
`NewOpenAILLM(ctx, cfg)` on the custom-endpoint early return (a `*Config`
where a `*LLM` is expected) as constructing the client from `llmConfig`. -/
def handleOpenAIClient (r : LLMRef) (cfg0 : Config) (clientType : String) :
    Config × ResolveResult :=
  let llmConfig0 := r.get cfg0
  -- line 30-33: copy the Azure deployment name down onto Model
  let cfg :=
    if llmConfig0.AzureOpenAIEndpoint ≠ "" ∧ llmConfig0.AzureOpenAIModel.LLMDeployment ≠ "" then
      r.set cfg0 { llmConfig0 with Model := llmConfig0.AzureOpenAIModel.LLMDeployment }
    else cfg0
  let llmConfig := r.get cfg
  if llmConfig.AzureOpenAIEndpoint ≠ "" then
    -- line 35: if custom OpenAI Endpoint is set, do not validate model name
    if cfg.LLM.OpenAIEndpoint ≠ "" then
      (cfg, .openaiClient llmConfig)
    -- line 39: otherwise, validate model name
    else if ¬ ValidOpenAILLMs cfg.LLM.Model then
      (cfg, .err (.invalidLLMDeployment llmConfig.Service))
    -- line 48: EmbeddingsDeployment is required only if Zep is configured
    -- to use OpenAI embeddings for document or message extractors
    else if llmConfig.AzureOpenAIModel.EmbeddingDeployment = "" ∧ useOpenAIEmbeddings cfg then
      (cfg, .err (.invalidEmbeddingsDeployment llmConfig.Service))
    else
      (cfg, .openaiClient llmConfig)
  else
    -- lines 57-75
    let isUsingCustomLLMEndpoint := cfg.LLM.OpenAIEndpoint ≠ "" && cfg.OpenAIEmbeddings.Enabled
    let isValidOpenAILLM := ValidOpenAILLMs llmConfig.Model
    let isValidOpenSourceLLM := isUsingCustomLLMEndpoint && ValidOpenSourceLLMs llmConfig.Model
    let isValidLLM := isValidOpenAILLM || isValidOpenSourceLLM
    -- even when only using the OpenAI client for embeddings, the LLM model
    -- must be set to a valid OpenAI model
    if clientType = "embeddings" && !isValidOpenAILLM then
      (cfg, .err (.invalidModel llmConfig.Model llmConfig.Service))
    else if !isValidLLM then
      (cfg, .err (.invalidModel llmConfig.Model llmConfig.Service))
    else
      (cfg, .openaiClient llmConfig)

/-- Source: `llm_base.go` `NewLLMClient` (completion-client resolution); the
Go `switch llmConfig.Service` is a first-match string dispatch. -/
def NewLLMClient (cfg : Config) : Config × ResolveResult :=
  let llmConfig := cfg.LLM
  if llmConfig.Service = "openai" then
    handleOpenAIClient llmRefLLM cfg "llm"
  else if llmConfig.Service = "anthropic" then
    if ¬ ValidAnthropicLLMs llmConfig.Model then
      (cfg, .err (.invalidModel llmConfig.Model llmConfig.Service))
    else
      (cfg, .anthropicClient cfg)
  else if llmConfig.Service = "" then
    -- for backward compatibility
    (cfg, .openaiClient llmConfig)
  else
    (cfg, .err (.invalidService llmConfig.Service))

/-- Source: `llm_base.go` `NewEmbeddingsClient` (embeddings-client
resolution over `cfg.OpenAIEmbeddings.Client`). -/
def NewEmbeddingsClient (cfg : Config) : Config × ResolveResult :=
  let llmConfig := cfg.OpenAIEmbeddings.Client
  if llmConfig.Service = "openai" then
    handleOpenAIClient llmRefEmbeddings cfg "embeddings"
  else if llmConfig.Service = "" then
    -- for backward compatibility
    (cfg, .openaiClient llmConfig)
  else
    (cfg, .err (.invalidEmbeddingsService llmConfig.Service))

/-- An HTTP response as seen by the retry policy: only the status code is
inspected. -/
structure HTTPResponse where
  StatusCode : Nat
deriving DecidableEq

/-- A Go `error` value.  `canceled` and `deadlineExceeded` are the two
possible results of `ctx.Err()`; `other` covers transport errors. -/
inductive GoError where
  | canceled
  | deadlineExceeded
  | other (msg : String)
deriving DecidableEq

/-- Model of `retryablehttp.DefaultRetryPolicy` from the external
`hashicorp/go-retryablehttp` dependency (not repository code): do not retry
when the context is done; retry on a transport error; retry on status 0, 429
or a 5xx other than 501; otherwise do not retry.  The URL/TLS carve-outs for
non-retryable transport errors are not modelled — no claim depends on them. -/
def DefaultRetryPolicy (ctxErr : Option GoError) (resp : Option HTTPResponse)
    (err : Option GoError) : Bool × Option GoError :=
  if ctxErr.isSome then
    (false, ctxErr)
  else
    match err with
    | some e => (true, some e)
    | none =>
      match resp with
      | some r =>
        if r.StatusCode = 0 || r.StatusCode = 429 ||
            (500 ≤ r.StatusCode && r.StatusCode ≠ 501) then
          (true, none)
        else
          (false, none)
      | none => (false, none)

/-- Source: `llm_base.go` `retryPolicy(ctx, resp, err)`.  `ctxErr` is the
value of `ctx.Err()` (`none` when the context is live). -/
def retryPolicy (ctxErr : Option GoError) (resp : Option HTTPResponse)
    (err : Option GoError) : Bool × Option GoError :=
  -- do not retry on context.Canceled or context.DeadlineExceeded
  if ctxErr.isSome then
    (false, ctxErr)
  -- do not retry 400 errors as they are used by OpenAI to indicate
  -- maximum context length exceeded
  else if (resp.map fun r => decide (r.StatusCode = 400)).getD false then
    (false, err)
  else
    ((DefaultRetryPolicy ctxErr resp err).1, none)

/-- One send attempt.  Modelled from the spec: with an already
cancelled/expired context the HTTP layer fails with the context's own error
without transmitting the request (the scripted provider responses are not
consumed); otherwise the next scripted `(response, error)` pair is consumed. -/
def doOnce (ctxErr : Option GoError)
    (responses : List (Option HTTPResponse × Option GoError)) :
    (Option HTTPResponse × Option GoError) × List (Option HTTPResponse × Option GoError) :=
  match ctxErr with
  | some e => ((none, some e), responses)
  | none =>
    match responses with
    | [] => ((none, some (GoError.other "no response")), [])
    | r :: rest => (r, rest)

/-- Model of the `retryablehttp.Client.Do` loop as configured by
`NewRetryableHTTPClient`: perform an attempt, consult `retryPolicy`, and
retry while it says to and retries remain (`retryMax` is the remaining
retry budget, `RetryMax` at the top call).  Returns the final
`(response, surfaced error)` — an error returned by the policy takes
precedence — and the number of requests actually transmitted. -/
def doWithRetries (ctxErr : Option GoError) :
    Nat → List (Option HTTPResponse × Option GoError) →
    (Option HTTPResponse × Option GoError) × Nat
  | retryMax, responses =>
    let step := doOnce ctxErr responses
    let resp := step.1.1
    let err := step.1.2
    let sends := if ctxErr.isSome then 0 else 1
    let check := retryPolicy ctxErr resp err
    if check.1 then
      match retryMax with
      | 0 => ((resp, err), sends)
      | n + 1 =>
        let rest := doWithRetries ctxErr n step.2
        (rest.1, sends + rest.2)
    else
      ((resp, match check.2 with | some e => some e | none => err), sends)

/-- Source: `models.EmbeddingModel` — the fields read by `EmbedTexts` and
built by `GetEmbeddingModel`. -/
structure EmbeddingModel where
  Service : String
  Dimensions : Nat
deriving DecidableEq

/-- Source: `models.AppState` as read by `EmbedTexts`: only the
process-wide embeddings client, a nilable interface value whose identity is
irrelevant here (`none` models a nil client). -/
structure AppState where
  EmbeddingsClient : Option Unit
deriving DecidableEq

/-- Outcome of `EmbedTexts`: an error, a dispatch to the local embedding
capability `embedTextsLocal(ctx, appState, documentType, text)`, or a
delegation to the resolved client's `EmbedTexts(ctx, text)`. -/
inductive EmbedOutcome where
  | embedError (msg : String)
  | localEmbed (documentType : String) (texts : List String)
  | clientEmbed (texts : List String)
deriving DecidableEq

/-- Source: `EmbedTexts` in the unnamed `pkg/llms` file (src/unnamed/part_000):
empty-input check, then nil-client check, then local-service dispatch, then
provider delegation, in that order. -/
def EmbedTexts (appState : AppState) (model : EmbeddingModel)
    (documentType : String) (text : List String) : EmbedOutcome :=
  if text.length = 0 then
    .embedError "no text to embed"
  else
    match appState.EmbeddingsClient with
    | none => .embedError InvalidLLMModelError
    | some _ =>
      if model.Service = "local" then
        .localEmbed documentType text
      else
        .clientEmbed text

/-- Source: `models.Message` — the fields the summarizer reads: the
message's UUID (IDs modelled as `Nat`) and its text content. -/
structure Message where
  UUID : Nat
  Content : String
deriving DecidableEq

/-- Source: `models.Summary` (spec §3): content, token count, and the
summary point — the UUID of the newest message already folded in. -/
structure Summary where
  Content : String
  TokenCount : Nat
  SummaryPointUUID : Nat
deriving DecidableEq

/-- Index of the first message with the given UUID, or -1 when absent —
the position of a summary point inside the message slice. -/
def uuidIndex : List Message → Nat → Int
  | [], _ => -1
  | m :: rest, u =>
    if m.UUID = u then 0
    else
      let r := uuidIndex rest u
      if r < 0 then -1 else r + 1

/-- The message at a position (a `Message` with UUID 0 and empty content
when out of range; the summarizer only uses in-range positions). -/
def msgAt : List Message → Nat → Message
  | [], _ => { UUID := 0, Content := "" }
  | m :: _, 0 => m
  | _ :: rest, n + 1 => msgAt rest n

/-- Spec §4.4 step 1: `cutIndex = len(messages) - max(minPendingCount, windowSize/2) - 1`. -/
def cutIndexOf (windowSize : Nat) (messages : List Message) (minPendingCount : Nat) : Int :=
  (messages.length : Int) - (Nat.max minPendingCount (windowSize / 2) : Nat) - 1

/-- The position of the prior summary's summary point in the message slice:
-1 for a nil prior summary or an absent summary point. -/
def priorIndexOf (messages : List Message) (summary : Option Summary) : Int :=
  match summary with
  | none => -1
  | some s => uuidIndex messages s.SummaryPointUUID

/-- Modelled from the spec: the summarizer implementation
(`pkg/extractors` `summarize`) is not under src — only its test
`TestSummarize` is.  Spec §4.4: compute the cut index (step 1); if it is
negative or does not advance past the prior summary's summary-point
position, return the prior summary unchanged as a success (step 2);
otherwise concatenate the prior content with the text of the messages in
`(priorIndex, cutIndex]`, invoke the completion capability on the resulting
prompt (step 3), token-count the result (step 4), and return a new summary
whose summary point is the UUID of the message at the cut index (step 5).
The completion and token-count collaborators are parameters `complete` and
`count`; a nil prior summary is `none` and contributes empty content. -/
def summarize (complete : String → String) (count : String → Nat)
    (windowSize : Nat) (messages : List Message) (summary : Option Summary)
    (minPendingCount : Nat) : Option Summary :=
  let cutIndex := cutIndexOf windowSize messages minPendingCount
  let priorIndex := priorIndexOf messages summary
  if cutIndex < 0 ∨ cutIndex ≤ priorIndex then
    summary
  else
    let priorContent := match summary with | none => "" | some s => s.Content
    let toSummarize := (messages.drop (priorIndex + 1).toNat).take (cutIndex - priorIndex).toNat
    let newContent := complete (String.join (priorContent :: toSummarize.map Message.Content))
    some { Content := newContent, TokenCount := count newContent,
           SummaryPointUUID := (msgAt messages cutIndex.toNat).UUID }

/-- C3: a response with HTTP status exactly 400 is never retried: the policy
decides not to retry under any context state, the attempt error is surfaced
as-is, and the retry loop performs exactly one attempt regardless of the
remaining attempt budget, handing back the 400 response. -/
theorem retryPolicy_400_no_retry
    (ctxErr err : Option GoError) (resp : HTTPResponse)
    (retryMax : Nat) (rest : List (Option HTTPResponse × Option GoError))
    (h : resp.StatusCode = 400) :
    (retryPolicy ctxErr (some resp) err).1 = false ∧
    (retryPolicy none (some resp) err).2 = err ∧
    (doWithRetries none retryMax ((some resp, err) :: rest)).2 = 1 ∧
    (doWithRetries none retryMax ((some resp, err) :: rest)).1.1 = some resp := by
  have hp : ∀ c, (retryPolicy c (some resp) err) = (false, if c.isSome then c else err) := by
    intro c
    cases c <;> simp [retryPolicy, h]
  refine ⟨by simp [hp], by simp [hp], ?_, ?_⟩ <;>
    · unfold doWithRetries
      simp [doOnce, hp]

/-- C3 witness: a single 400 response with budget for 5 retries and a 200
queued behind it still results in exactly one attempt, surfacing the 400. -/
theorem retryPolicy_400_no_retry_check :
    (⟨400⟩ : HTTPResponse).StatusCode = 400 ∧
    ((retryPolicy none (some ⟨400⟩) none).1 = false ∧
      (retryPolicy none (some ⟨400⟩) none).2 = none ∧
      (doWithRetries none 5 [(some ⟨400⟩, none), (some ⟨200⟩, none)]).2 = 1 ∧
      (doWithRetries none 5 [(some ⟨400⟩, none), (some ⟨200⟩, none)]).1.1 = some ⟨400⟩) :=
  ⟨rfl, retryPolicy_400_no_retry none none ⟨400⟩ 5 [(some ⟨200⟩, none)] rfl⟩

/-- C7: with an already cancelled or expired context the policy refuses to
retry and surfaces the context's own error (whatever the transport error
was), and the retry loop transmits no request at all, surfacing that same
context error. -/
theorem retryPolicy_cancelled_ctx
    (e : GoError) (resp : Option HTTPResponse) (err : Option GoError)
    (retryMax : Nat) (responses : List (Option HTTPResponse × Option GoError)) :
    retryPolicy (some e) resp err = (false, some e) ∧
    (doWithRetries (some e) retryMax responses).1.2 = some e ∧
    (doWithRetries (some e) retryMax responses).2 = 0 := by
  refine ⟨by simp [retryPolicy], ?_, ?_⟩ <;>
    · unfold doWithRetries
      simp [doOnce, retryPolicy]

/-- C4: the `EmbedTexts` dispatch contract: empty input is rejected with the
validation error before any client or local call; with a configured client,
a `"local"`-service model dispatches to the local embedding capability and
any other service delegates to the client's `EmbedTexts`. -/
theorem EmbedTexts_dispatch
    (appState : AppState) (model : EmbeddingModel) (documentType : String)
    (text : List String) :
    (text = [] → EmbedTexts appState model documentType text
      = .embedError "no text to embed") ∧
    (appState.EmbeddingsClient ≠ none → text ≠ [] → model.Service = "local" →
      EmbedTexts appState model documentType text = .localEmbed documentType text) ∧
    (appState.EmbeddingsClient ≠ none → text ≠ [] → model.Service ≠ "local" →
      EmbedTexts appState model documentType text = .clientEmbed text) := by
  refine ⟨fun he => by simp [EmbedTexts, he], fun hc ht hl => ?_, fun hc ht hl => ?_⟩ <;>
    · obtain ⟨u, hu⟩ := Option.ne_none_iff_exists.mp (by simpa using hc)
      simp [EmbedTexts, ht, ← hu, hl]

/-- C4 witness: the three dispatch branches at concrete inputs. -/
theorem EmbedTexts_dispatch_check :
    EmbedTexts ⟨some ()⟩ ⟨"local", 384⟩ "message" ["hi"]
      = .localEmbed "message" ["hi"] ∧
    EmbedTexts ⟨some ()⟩ ⟨"openai", 1536⟩ "document" ["hi"] = .clientEmbed ["hi"] ∧
    EmbedTexts ⟨some ()⟩ ⟨"openai", 1536⟩ "message" [] = .embedError "no text to embed" :=
  ⟨(EmbedTexts_dispatch ⟨some ()⟩ ⟨"local", 384⟩ "message" ["hi"]).2.1
      (by simp) (by simp) rfl,
    (EmbedTexts_dispatch ⟨some ()⟩ ⟨"openai", 1536⟩ "document" ["hi"]).2.2
      (by simp) (by simp) (by simp),
    (EmbedTexts_dispatch ⟨some ()⟩ ⟨"openai", 1536⟩ "message" []).1 rfl⟩

/-- C10: with a nil process-wide embeddings client, any non-empty input
makes `EmbedTexts` fail with the invalid-model error — in particular the
local embedding capability is never invoked without a configured client,
because the nil check precedes the local-service dispatch. -/
theorem EmbedTexts_nil_client
    (model : EmbeddingModel) (documentType : String) (text : List String)
    (h : text ≠ []) :
    EmbedTexts { EmbeddingsClient := none } model documentType text
      = .embedError InvalidLLMModelError := by
  simp [EmbedTexts, h]

/-- C10 witness: a `"local"`-service model with a nil client errors instead
of dispatching locally. -/
theorem EmbedTexts_nil_client_check :
    (["hi"] : List String) ≠ [] ∧
    EmbedTexts { EmbeddingsClient := none } ⟨"local", 384⟩ "message" ["hi"]
      = .embedError InvalidLLMModelError :=
  ⟨by simp, EmbedTexts_nil_client ⟨"local", 384⟩ "message" ["hi"] (by simp)⟩

/-- An all-empty `config.LLM`, for building concrete configurations. -/
def emptyLLM : LLM where
  Service := ""
  Model := ""
  OpenAIAPIKey := ""
  OpenAIEndpoint := ""
  AzureOpenAIEndpoint := ""
  AzureOpenAIModel := { LLMDeployment := "", EmbeddingDeployment := "" }
  OpenAIOrgID := ""

/-- Extractor embeddings turned off. -/
def offEmbeddings : EmbeddingsSettings where
  Enabled := false
  Service := ""
  Dimensions := 0

/-- Extractor embeddings enabled with the openai service. -/
def onOpenAIEmbeddings : EmbeddingsSettings where
  Enabled := true
  Service := "openai"
  Dimensions := 1536

/-- A configuration with everything empty or disabled. -/
def baseConfig : Config where
  LLM := emptyLLM
  OpenAIEmbeddings := { Enabled := false, Client := emptyLLM }
  Extractors := { Messages := { Embeddings := offEmbeddings },
                  Documents := { Embeddings := offEmbeddings } }

/-- The configuration component of the `handleOpenAIClient` result: the only
write through the `llmConfig` pointer is the Azure-deployment copy-down. -/
theorem handleOpenAIClient_fst (r : LLMRef) (cfg : Config) (clientType : String) :
    (handleOpenAIClient r cfg clientType).1 =
      if (r.get cfg).AzureOpenAIEndpoint ≠ "" ∧
          (r.get cfg).AzureOpenAIModel.LLMDeployment ≠ "" then
        r.set cfg { r.get cfg with Model := (r.get cfg).AzureOpenAIModel.LLMDeployment }
      else cfg := by
  simp only [handleOpenAIClient]
  by_cases h : (r.get cfg).AzureOpenAIEndpoint ≠ "" ∧
      (r.get cfg).AzureOpenAIModel.LLMDeployment ≠ ""
  · simp only [if_pos h]
    split <;> first | rfl | (split <;> first | rfl | (split <;> first | rfl | (split <;> rfl)))
  · simp only [if_neg h]
    split <;> first | rfl | (split <;> first | rfl | (split <;> first | rfl | (split <;> rfl)))

/-- A configuration with a custom OpenAI-compatible endpoint, no Azure
endpoint, and a model name absent from every known-model registry. -/
def cfgCustomUnknown : Config :=
  { baseConfig with
    LLM := { emptyLLM with
      Service := "openai", Model := "mistral-7b", OpenAIAPIKey := "sk-test",
      OpenAIEndpoint := "http://localhost:1234" },
    OpenAIEmbeddings := { Enabled := true, Client := emptyLLM } }

/-- C2 counterexample: with a custom endpoint configured, no Azure endpoint,
and OpenAI embeddings enabled, resolving a completion client for the unknown
model "mistral-7b" returns a configuration error naming the model — the
known-model validation is NOT bypassed, contrary to the claim. -/
theorem customEndpoint_unknown_model_cex :
    cfgCustomUnknown.LLM.OpenAIEndpoint ≠ "" ∧
    cfgCustomUnknown.LLM.AzureOpenAIEndpoint = "" ∧
    ValidOpenAILLMs cfgCustomUnknown.LLM.Model = false ∧
    ValidOpenSourceLLMs cfgCustomUnknown.LLM.Model = false ∧
    ValidAnthropicLLMs cfgCustomUnknown.LLM.Model = false ∧
    (NewLLMClient cfgCustomUnknown).2
      = ResolveResult.err (ResolveError.invalidModel "mistral-7b" "openai") :=
  ⟨by decide, rfl, rfl, rfl, rfl, rfl⟩

/-- C2 (amended): with a custom endpoint and no Azure endpoint, the model
name is still validated: resolution succeeds exactly when the model is in
the OpenAI known-model set, or OpenAI embeddings are enabled and it is in
the open-source known-model set; otherwise it fails with a configuration
error naming the model.  (The unvalidated custom-endpoint bypass exists
only inside the Azure-endpoint branch.) -/
theorem customEndpoint_model_validation (cfg : Config)
    (hs : cfg.LLM.Service = "openai")
    (haz : cfg.LLM.AzureOpenAIEndpoint = "")
    (hc : cfg.LLM.OpenAIEndpoint ≠ "") :
    (NewLLMClient cfg).2 =
      if (ValidOpenAILLMs cfg.LLM.Model ||
          (cfg.OpenAIEmbeddings.Enabled && ValidOpenSourceLLMs cfg.LLM.Model)) = true then
        ResolveResult.openaiClient cfg.LLM
      else
        ResolveResult.err (.invalidModel cfg.LLM.Model cfg.LLM.Service) := by
  simp only [NewLLMClient, handleOpenAIClient, llmRefLLM, hs, haz, hc]
  simp [haz, hc, hs]
  split <;> simp_all <;> split <;> simp_all

/-- C2 witness: the amended validation rule applied to the concrete
custom-endpoint configuration with an unknown model. -/
theorem customEndpoint_model_validation_check :
    cfgCustomUnknown.LLM.Service = "openai" ∧
    (NewLLMClient cfgCustomUnknown).2 =
      (if (ValidOpenAILLMs cfgCustomUnknown.LLM.Model ||
          (cfgCustomUnknown.OpenAIEmbeddings.Enabled &&
            ValidOpenSourceLLMs cfgCustomUnknown.LLM.Model)) = true then
        ResolveResult.openaiClient cfgCustomUnknown.LLM
      else
        ResolveResult.err (.invalidModel cfgCustomUnknown.LLM.Model
          cfgCustomUnknown.LLM.Service)) :=
  ⟨rfl, customEndpoint_model_validation cfgCustomUnknown rfl rfl (by decide)⟩

/-- A configuration with the Azure endpoint set and a deployment name that
differs from the configured model. -/
def cfgAzureDeployment : Config :=
  { baseConfig with
    LLM := { emptyLLM with
      Service := "openai", Model := "gpt-3.5-turbo", OpenAIAPIKey := "sk-test",
      AzureOpenAIEndpoint := "https://example.openai.azure.com",
      AzureOpenAIModel := { LLMDeployment := "gpt-4", EmbeddingDeployment := "emb-deploy" } } }

/-- C5 counterexample: resolving a completion client for an Azure
configuration with a non-empty deployment name overwrites the supplied
configuration's `Model` field in place (here from "gpt-3.5-turbo" to
"gpt-4"), so the configuration is not left unchanged. -/
theorem resolve_mutates_config_cex :
    cfgAzureDeployment.LLM.Model = "gpt-3.5-turbo" ∧
    (NewLLMClient cfgAzureDeployment).1.LLM.Model = "gpt-4" ∧
    (NewLLMClient cfgAzureDeployment).1 ≠ cfgAzureDeployment :=
  ⟨rfl, rfl, by decide⟩

/-- C5 (amended): resolving a client leaves the supplied configuration
unchanged EXCEPT on the openai path with the Azure endpoint set and a
non-empty LLM deployment name, in which case exactly the resolved client
config's `Model` field is overwritten with the deployment name (the
completion path writes `cfg.LLM`, the embeddings path writes
`cfg.OpenAIEmbeddings.Client`). -/
theorem resolve_config_mutation (cfg : Config) :
    (NewLLMClient cfg).1 =
      (if cfg.LLM.Service = "openai" ∧ cfg.LLM.AzureOpenAIEndpoint ≠ "" ∧
          cfg.LLM.AzureOpenAIModel.LLMDeployment ≠ "" then
        { cfg with LLM :=
          { cfg.LLM with Model := cfg.LLM.AzureOpenAIModel.LLMDeployment } }
      else cfg) ∧
    (NewEmbeddingsClient cfg).1 =
      (if cfg.OpenAIEmbeddings.Client.Service = "openai" ∧
          cfg.OpenAIEmbeddings.Client.AzureOpenAIEndpoint ≠ "" ∧
          cfg.OpenAIEmbeddings.Client.AzureOpenAIModel.LLMDeployment ≠ "" then
        { cfg with OpenAIEmbeddings := { cfg.OpenAIEmbeddings with Client :=
          { cfg.OpenAIEmbeddings.Client with
            Model := cfg.OpenAIEmbeddings.Client.AzureOpenAIModel.LLMDeployment } } }
      else cfg) := by
  constructor
  · by_cases hs : cfg.LLM.Service = "openai"
    · have h1 : NewLLMClient cfg = handleOpenAIClient llmRefLLM cfg "llm" := by
        simp [NewLLMClient, hs]
      rw [h1, handleOpenAIClient_fst]
      simp [llmRefLLM, hs]
    · simp only [NewLLMClient, if_neg hs]
      have : ¬ (cfg.LLM.Service = "openai" ∧ cfg.LLM.AzureOpenAIEndpoint ≠ "" ∧
          cfg.LLM.AzureOpenAIModel.LLMDeployment ≠ "") := fun h => hs h.1
      rw [if_neg this]
      split <;> first | rfl | (split <;> rfl)
  · by_cases hs : cfg.OpenAIEmbeddings.Client.Service = "openai"
    · have h1 : NewEmbeddingsClient cfg = handleOpenAIClient llmRefEmbeddings cfg "embeddings" := by
        simp [NewEmbeddingsClient, hs]
      rw [h1, handleOpenAIClient_fst]
      simp [llmRefEmbeddings, hs]
    · simp only [NewEmbeddingsClient, if_neg hs]
      have : ¬ (cfg.OpenAIEmbeddings.Client.Service = "openai" ∧
          cfg.OpenAIEmbeddings.Client.AzureOpenAIEndpoint ≠ "" ∧
          cfg.OpenAIEmbeddings.Client.AzureOpenAIModel.LLMDeployment ≠ "") := fun h => hs h.1
      rw [if_neg this]
      split <;> rfl

/-- A configuration with the empty (unset) service, no endpoints, and a
model name absent from every known-model registry. -/
def cfgEmptyServiceUnknown : Config :=
  { baseConfig with
    LLM := { emptyLLM with Model := "not-a-real-model", OpenAIAPIKey := "sk-test" } }

/-- C6 counterexample: with no custom and no Azure endpoint and a model in
no known-model set, resolving a completion client for the empty (unset)
service — which defaults to the OpenAI-compatible provider — SUCCEEDS with
a client and no validation, contrary to the claim that it must fail. -/
theorem unknown_model_empty_service_cex :
    cfgEmptyServiceUnknown.LLM.OpenAIEndpoint = "" ∧
    cfgEmptyServiceUnknown.LLM.AzureOpenAIEndpoint = "" ∧
    ValidLLMMap cfgEmptyServiceUnknown.LLM.Model = false ∧
    ValidOpenAILLMs cfgEmptyServiceUnknown.LLM.Model = false ∧
    (NewLLMClient cfgEmptyServiceUnknown).2
      = ResolveResult.openaiClient cfgEmptyServiceUnknown.LLM :=
  ⟨rfl, rfl, rfl, rfl, rfl⟩

/-- C6 (amended): with no custom and no Azure endpoint, an explicit
provider service validates the model and fails with a configuration error
naming the model when it is absent from that provider's known-model set
("openai" against the OpenAI set, "anthropic" against the Anthropic set);
for purpose embeddings the model must be in the OpenAI set; but the empty
(unset) service path returns a client with no model validation at all. -/
theorem model_validation_no_endpoints (cfg : Config) :
    (cfg.LLM.Service = "openai" → cfg.LLM.OpenAIEndpoint = "" →
      cfg.LLM.AzureOpenAIEndpoint = "" → ValidOpenAILLMs cfg.LLM.Model = false →
      (NewLLMClient cfg).2
        = ResolveResult.err (.invalidModel cfg.LLM.Model cfg.LLM.Service)) ∧
    (cfg.LLM.Service = "anthropic" → ValidAnthropicLLMs cfg.LLM.Model = false →
      (NewLLMClient cfg).2
        = ResolveResult.err (.invalidModel cfg.LLM.Model cfg.LLM.Service)) ∧
    (cfg.LLM.Service = "" →
      (NewLLMClient cfg).2 = ResolveResult.openaiClient cfg.LLM) ∧
    (cfg.OpenAIEmbeddings.Client.Service = "openai" →
      cfg.OpenAIEmbeddings.Client.AzureOpenAIEndpoint = "" →
      ValidOpenAILLMs cfg.OpenAIEmbeddings.Client.Model = false →
      (NewEmbeddingsClient cfg).2
        = ResolveResult.err (.invalidModel cfg.OpenAIEmbeddings.Client.Model
            cfg.OpenAIEmbeddings.Client.Service)) := by
  refine ⟨fun hs hc haz hv => ?_, fun hs hv => ?_, fun hs => ?_, fun hs haz hv => ?_⟩
  · simp [NewLLMClient, handleOpenAIClient, llmRefLLM, hs, hc, haz, hv]
  · simp [NewLLMClient, hs, hv]
  · simp [NewLLMClient, hs]
  · simp [NewEmbeddingsClient, handleOpenAIClient, llmRefEmbeddings, hs, haz, hv]

/-- A configuration whose completion service is "openai" with an unknown
model and no endpoints. -/
def cfgOpenAIUnknown : Config :=
  { baseConfig with
    LLM := { emptyLLM with
      Service := "openai", Model := "gpt-5-ultra", OpenAIAPIKey := "sk-test" } }

/-- A configuration whose embeddings client service is "openai" with a
model outside the OpenAI known-model set and no endpoints. -/
def cfgEmbUnknown : Config :=
  { baseConfig with
    OpenAIEmbeddings := {
      Enabled := true,
      Client := { emptyLLM with
        Service := "openai", Model := "instructor-xl", OpenAIAPIKey := "sk-test" } } }

/-- C6 witness: the amended rule at concrete configurations — the unknown
completion model and the unknown embeddings model are both rejected with an
error naming the model. -/
theorem model_validation_no_endpoints_check :
    (NewLLMClient cfgOpenAIUnknown).2
      = ResolveResult.err (.invalidModel "gpt-5-ultra" "openai") ∧
    (NewEmbeddingsClient cfgEmbUnknown).2
      = ResolveResult.err (.invalidModel "instructor-xl" "openai") :=
  ⟨(model_validation_no_endpoints cfgOpenAIUnknown).1 rfl rfl rfl rfl,
    (model_validation_no_endpoints cfgEmbUnknown).2.2.2 rfl rfl rfl⟩

/-- A configuration whose embeddings client has the empty (unset) service
but the Azure endpoint set and no embeddings deployment, while message
embeddings are enabled system-wide with the openai service. -/
def cfgAzureEmptyService : Config :=
  { baseConfig with
    OpenAIEmbeddings := {
      Enabled := false,
      Client := { emptyLLM with
        Model := "text-embedding-ada-002", OpenAIAPIKey := "sk-test",
        AzureOpenAIEndpoint := "https://example.openai.azure.com" } },
    Extractors := { Messages := { Embeddings := onOpenAIEmbeddings },
                    Documents := { Embeddings := offEmbeddings } } }

/-- C9 counterexample: a configuration with the Azure endpoint set, OpenAI
embeddings enabled system-wide, and an EMPTY azureEmbeddingDeployment, for
which resolving the embeddings client nevertheless SUCCEEDS, because the
empty (unset) client service takes the backward-compat path that performs
no Azure checks at all — the claimed failure does not occur for every such
configuration. -/
theorem azure_embeddings_deployment_cex :
    cfgAzureEmptyService.OpenAIEmbeddings.Client.AzureOpenAIEndpoint ≠ "" ∧
    cfgAzureEmptyService.OpenAIEmbeddings.Client.AzureOpenAIModel.EmbeddingDeployment = "" ∧
    useOpenAIEmbeddings cfgAzureEmptyService = true ∧
    (NewEmbeddingsClient cfgAzureEmptyService).2
      = ResolveResult.openaiClient cfgAzureEmptyService.OpenAIEmbeddings.Client :=
  ⟨by decide, rfl, rfl, rfl⟩

/-- C9 (amended): for an embeddings client whose service is "openai" (the
path that reaches the Azure validation) with the Azure endpoint set and no
custom completion endpoint configured, when OpenAI embeddings are enabled
system-wide and the Azure embeddings deployment is empty, resolution fails
with a configuration error; and the missing-embeddings-deployment failure
never fires when OpenAI embeddings are not enabled system-wide. -/
theorem azure_embeddings_deployment_required (cfg : Config) :
    (cfg.OpenAIEmbeddings.Client.Service = "openai" →
      cfg.OpenAIEmbeddings.Client.AzureOpenAIEndpoint ≠ "" →
      cfg.LLM.OpenAIEndpoint = "" →
      cfg.OpenAIEmbeddings.Client.AzureOpenAIModel.EmbeddingDeployment = "" →
      useOpenAIEmbeddings cfg = true →
      ∃ e, (NewEmbeddingsClient cfg).2 = ResolveResult.err e) ∧
    (useOpenAIEmbeddings cfg = false →
      ∀ s, (NewEmbeddingsClient cfg).2
        ≠ ResolveResult.err (ResolveError.invalidEmbeddingsDeployment s)) := by
  have hcongr : ∀ o : OpenAIEmbeddingsConfig,
      useOpenAIEmbeddings { cfg with OpenAIEmbeddings := o } = useOpenAIEmbeddings cfg :=
    fun _ => rfl
  constructor
  · intro hs haz hc hd hu
    by_cases hld : cfg.OpenAIEmbeddings.Client.AzureOpenAIModel.LLMDeployment = "" <;>
      by_cases hv : ValidOpenAILLMs cfg.LLM.Model = true
    · exact ⟨.invalidEmbeddingsDeployment cfg.OpenAIEmbeddings.Client.Service, by
        simp [NewEmbeddingsClient, handleOpenAIClient, llmRefEmbeddings,
          hs, haz, hc, hd, hu, hv, hld]⟩
    · exact ⟨.invalidLLMDeployment cfg.OpenAIEmbeddings.Client.Service, by
        simp [NewEmbeddingsClient, handleOpenAIClient, llmRefEmbeddings,
          hs, haz, hc, hd, hu, hv, hld]⟩
    · exact ⟨.invalidEmbeddingsDeployment cfg.OpenAIEmbeddings.Client.Service, by
        simp [NewEmbeddingsClient, handleOpenAIClient, llmRefEmbeddings,
          hs, haz, hc, hd, hu, hv, hld, hcongr]⟩
    · exact ⟨.invalidLLMDeployment cfg.OpenAIEmbeddings.Client.Service, by
        simp [NewEmbeddingsClient, handleOpenAIClient, llmRefEmbeddings,
          hs, haz, hc, hd, hu, hv, hld]⟩
  · intro hu s
    simp only [NewEmbeddingsClient, handleOpenAIClient, llmRefEmbeddings]
    repeat' split
    all_goals simp_all [hcongr]

/-- A configuration whose embeddings client service is "openai" with the
Azure endpoint set and an empty embeddings deployment, while message
embeddings are enabled system-wide with the openai service. -/
def cfgAzureEmbMissing : Config :=
  { baseConfig with
    LLM := { emptyLLM with
      Service := "openai", Model := "gpt-4", OpenAIAPIKey := "sk-test" },
    OpenAIEmbeddings := {
      Enabled := true,
      Client := { emptyLLM with
        Service := "openai", Model := "text-embedding-ada-002",
        OpenAIAPIKey := "sk-test",
        AzureOpenAIEndpoint := "https://example.openai.azure.com" } },
    Extractors := { Messages := { Embeddings := onOpenAIEmbeddings },
                    Documents := { Embeddings := offEmbeddings } } }

/-- C9 witness: the amended rule at concrete configurations — the missing
Azure embeddings deployment is rejected on the openai embeddings path, and
no missing-deployment error fires on the all-disabled configuration. -/
theorem azure_embeddings_deployment_required_check :
    (∃ e, (NewEmbeddingsClient cfgAzureEmbMissing).2 = ResolveResult.err e) ∧
    (NewEmbeddingsClient baseConfig).2
      ≠ ResolveResult.err (ResolveError.invalidEmbeddingsDeployment "openai") :=
  ⟨(azure_embeddings_deployment_required cfgAzureEmbMissing).1 rfl (by decide) rfl rfl rfl,
    (azure_embeddings_deployment_required baseConfig).2 rfl "openai"⟩

/-- The message at an in-range position is an element of the list. -/
theorem msgAt_mem (l : List Message) (i : Nat) (h : i < l.length) : msgAt l i ∈ l := by
  induction l generalizing i with
  | nil => simp at h
  | cons m rest ih =>
    cases i with
    | zero => simp [msgAt]
    | succ j =>
      have := ih j (by simpa using h)
      simp [msgAt, this]

/-- With pairwise-distinct message UUIDs, the UUID of the message at
position `i` is found back at exactly position `i`. -/
theorem uuidIndex_msgAt (l : List Message) (i : Nat)
    (hnd : (l.map Message.UUID).Nodup) (h : i < l.length) :
    uuidIndex l (msgAt l i).UUID = (i : Int) := by
  induction l generalizing i with
  | nil => simp at h
  | cons m rest ih =>
    rw [List.map_cons, List.nodup_cons] at hnd
    cases i with
    | zero => simp [msgAt, uuidIndex]
    | succ j =>
      have hj : j < rest.length := by simpa using h
      have hmem : (msgAt rest j).UUID ∈ rest.map Message.UUID :=
        List.mem_map_of_mem Message.UUID (msgAt_mem rest j hj)
      have hne : ¬ m.UUID = (msgAt rest j).UUID := fun he => hnd.1 (he ▸ hmem)
      have hr := ih j hnd.2 hj
      simp only [msgAt, uuidIndex, hne, if_false, hr, if_neg]
      norm_num

/-- C1: whenever `minPendingCount ≤ windowSize/2` and the index
`len(messages) - windowSize/2 - 1` is in range and advances past the prior
summary point, `summarize` returns a new summary whose summary point is the
UUID of the message at exactly that index — for every prior summary
(including none), so the cut point is independent of the prior. -/
theorem summarize_cut_point
    (complete : String → String) (count : String → Nat)
    (messages : List Message) (windowSize minPendingCount : Nat)
    (prior : Option Summary)
    (hw : 0 < windowSize)
    (hm : minPendingCount ≤ windowSize / 2)
    (hlen : windowSize / 2 + 1 ≤ messages.length)
    (hadv : priorIndexOf messages prior
      < (messages.length : Int) - (windowSize / 2 : Nat) - 1) :
    ∃ s, summarize complete count windowSize messages prior minPendingCount = some s ∧
      s.SummaryPointUUID = (msgAt messages (messages.length - windowSize / 2 - 1)).UUID := by
  have hmax : Nat.max minPendingCount (windowSize / 2) = windowSize / 2 :=
    Nat.max_eq_right hm
  have hcut : cutIndexOf windowSize messages minPendingCount
      = (messages.length : Int) - (windowSize / 2 : Nat) - 1 := by
    simp [cutIndexOf, hmax]
  have hc1 : ¬ (cutIndexOf windowSize messages minPendingCount < 0 ∨
      cutIndexOf windowSize messages minPendingCount
        ≤ priorIndexOf messages prior) := by
    rw [hcut]
    push_neg
    exact ⟨by omega, by omega⟩
  have htn : (cutIndexOf windowSize messages minPendingCount).toNat
      = messages.length - windowSize / 2 - 1 := by
    rw [hcut]; omega
  simp only [summarize]
  rw [if_neg hc1]
  exact ⟨_, rfl, by rw [htn]⟩

/-- Three messages with distinct UUIDs. -/
def msgsABC : List Message :=
  [{ UUID := 1, Content := "a" }, { UUID := 2, Content := "b" },
   { UUID := 3, Content := "c" }]

/-- C1 witness: with three messages, window size 2 and no prior summary,
the cut point lands on the middle message (UUID 2). -/
theorem summarize_cut_point_check :
    (0 < 2 ∧ 0 ≤ 2 / 2 ∧ 2 / 2 + 1 ≤ msgsABC.length ∧
      priorIndexOf msgsABC none < (msgsABC.length : Int) - (2 / 2 : Nat) - 1) ∧
    (∃ s, summarize (fun s => s) String.length 2 msgsABC none 0 = some s ∧
      s.SummaryPointUUID = (msgAt msgsABC (msgsABC.length - 2 / 2 - 1)).UUID) :=
  ⟨⟨by decide, by decide, by decide, by decide⟩,
    summarize_cut_point (fun s => s) String.length msgsABC 2 0 none
      (by decide) (by decide) (by decide) (by decide)⟩

/-- C8: `summarize` is idempotent-forward — feeding the result of a call
straight back as the prior summary over the same messages reproduces that
result unchanged (so the summary point never moves backward), and both the
negative-cut-index case and the cut-point-not-advanced case return the
prior summary unchanged as a success. -/
theorem summarize_idempotent_forward
    (complete : String → String) (count : String → Nat)
    (windowSize minPendingCount : Nat) (messages : List Message)
    (prior : Option Summary)
    (hnd : (messages.map Message.UUID).Nodup) :
    summarize complete count windowSize messages
        (summarize complete count windowSize messages prior minPendingCount)
        minPendingCount
      = summarize complete count windowSize messages prior minPendingCount ∧
    (cutIndexOf windowSize messages minPendingCount < 0 →
      summarize complete count windowSize messages prior minPendingCount = prior) ∧
    (cutIndexOf windowSize messages minPendingCount
        ≤ priorIndexOf messages prior →
      summarize complete count windowSize messages prior minPendingCount = prior) := by
  refine ⟨?_, fun h => by simp only [summarize]; rw [if_pos (Or.inl h)],
    fun h => by simp only [summarize]; rw [if_pos (Or.inr h)]⟩
  by_cases hc : cutIndexOf windowSize messages minPendingCount < 0 ∨
      cutIndexOf windowSize messages minPendingCount ≤ priorIndexOf messages prior
  · have h1 : summarize complete count windowSize messages prior minPendingCount
        = prior := by
      simp only [summarize]; rw [if_pos hc]
    rw [h1]
    exact h1
  · have h0 : ¬ cutIndexOf windowSize messages minPendingCount < 0 :=
      fun h => hc (Or.inl h)
    have hcnn : 0 ≤ cutIndexOf windowSize messages minPendingCount :=
      le_of_not_lt h0
    have hlt : (cutIndexOf windowSize messages minPendingCount).toNat
        < messages.length := by
      unfold cutIndexOf at hcnn ⊢
      omega
    have h1 : ∃ s, summarize complete count windowSize messages prior minPendingCount
          = some s ∧
        s.SummaryPointUUID
          = (msgAt messages
              (cutIndexOf windowSize messages minPendingCount).toNat).UUID := by
      simp only [summarize]
      rw [if_neg hc]
      exact ⟨_, rfl, rfl⟩
    obtain ⟨s, hs1, hs2⟩ := h1
    rw [hs1]
    have hpi : priorIndexOf messages (some s)
        = cutIndexOf windowSize messages minPendingCount := by
      simp only [priorIndexOf, hs2]
      rw [uuidIndex_msgAt messages _ hnd hlt]
      exact Int.toNat_of_nonneg hcnn
    simp only [summarize]
    rw [if_pos (Or.inr hpi.symm.le)]

/-- C8 witness: re-summarizing the three-message window with its own fresh
summary as prior returns that summary unchanged. -/
theorem summarize_idempotent_forward_check :
    (msgsABC.map Message.UUID).Nodup ∧
    summarize (fun s => s) String.length 2 msgsABC
        (summarize (fun s => s) String.length 2 msgsABC none 0) 0
      = summarize (fun s => s) String.length 2 msgsABC none 0 :=
  ⟨by decide,
    (summarize_idempotent_forward (fun s => s) String.length 2 0 msgsABC none
      (by decide)).1⟩

end Zep
